import Mathlib

/-!
Shallow embedding of the `pointer-types` crate's button types
(`PointerButton`, the `PointerButtons` bit-set and their conversions),
together with proofs of the specified properties.

The Rust `u8` carried by `PointerButtons` is modelled as a `Nat`; every
operation of the source keeps an in-range byte in range, and the `u8`
complement `!x` is rendered explicitly as `255 ^^^ x`.  Where a statement
genuinely depends on the value being a byte, the hypothesis `< 256`
appears explicitly.
-/

/-- The `PointerButton` enum, discriminants 0..5. -/
inductive PointerButton where
  | None
  | Primary
  | Secondary
  | Auxiliary
  | X1
  | X2
  deriving DecidableEq, Fintype

namespace PointerButton

/-- The `button as u8` cast: the declared discriminant. -/
def toU8 : PointerButton → Nat
  | .None => 0
  | .Primary => 1
  | .Secondary => 2
  | .Auxiliary => 3
  | .X1 => 4
  | .X2 => 5

/-- The `button as isize` cast: the declared discriminant, as an integer. -/
def toIsize : PointerButton → Int
  | .None => 0
  | .Primary => 1
  | .Secondary => 2
  | .Auxiliary => 3
  | .X1 => 4
  | .X2 => 5

/-- `impl From<isize> for PointerButton`. -/
def fromIsize : Int → PointerButton
  | 0 => .None
  | 1 => .Primary
  | 2 => .Secondary
  | 3 => .Auxiliary
  | 4 => .X1
  | 5 => .X2
  | _ => .None

/-- The set-bit expression `1.min(button as u8) << button as u8` that the
`PointerButtons` methods apply to their argument. -/
def mask (b : PointerButton) : Nat :=
  min 1 b.toU8 <<< b.toU8

end PointerButton

/-- `pub struct PointerButtons(u8)`; the byte is modelled as a `Nat`. -/
structure PointerButtons where
  toU8 : Nat
  deriving DecidableEq

namespace PointerButtons

/-- `PointerButtons::empty`. -/
def empty : PointerButtons := ⟨0⟩

/-- `PointerButtons::insert` (the state after `self.0 |= 1.min(b as u8) << b as u8`). -/
def insert (s : PointerButtons) (b : PointerButton) : PointerButtons :=
  ⟨s.toU8 ||| b.mask⟩

/-- `PointerButtons::remove` (the state after `self.0 &= !(1.min(b as u8) << b as u8)`;
the `u8` complement is `255 ^^^ ·`). -/
def remove (s : PointerButtons) (b : PointerButton) : PointerButtons :=
  ⟨s.toU8 &&& (255 ^^^ b.mask)⟩

/-- `PointerButtons::with`, the builder-style variant of `insert`. -/
def withButton (s : PointerButtons) (b : PointerButton) : PointerButtons :=
  ⟨s.toU8 ||| b.mask⟩

/-- `PointerButtons::without`, the builder-style variant of `remove`. -/
def without (s : PointerButtons) (b : PointerButton) : PointerButtons :=
  ⟨s.toU8 &&& (255 ^^^ b.mask)⟩

/-- `PointerButtons::contains`. -/
def contains (s : PointerButtons) (b : PointerButton) : Bool :=
  (s.toU8 &&& b.mask) != 0

/-- `PointerButtons::is_empty`. -/
def is_empty (s : PointerButtons) : Bool :=
  s.toU8 == 0

/-- `PointerButtons::is_superset`. -/
def is_superset (s : PointerButtons) (buttons : PointerButtons) : Bool :=
  s.toU8 &&& buttons.toU8 == buttons.toU8

/-- `PointerButtons::extend` (the state after `self.0 |= buttons.0`). -/
def extend (s : PointerButtons) (buttons : PointerButtons) : PointerButtons :=
  ⟨s.toU8 ||| buttons.toU8⟩

/-- `PointerButtons::union`. -/
def union (s : PointerButtons) (other : PointerButtons) : PointerButtons :=
  ⟨s.toU8 ||| other.toU8⟩

/-- `PointerButtons::clear` (the state after `self.0 = 0`). -/
def clear (_ : PointerButtons) : PointerButtons := ⟨0⟩

/-- `impl From<u8> for PointerButtons`: the identity on the raw byte.
Callers supply a byte, so uses come with a `< 256` bound. -/
def fromU8 (value : Nat) : PointerButtons := ⟨value⟩

end PointerButtons

/-- The mask of any button has bit 0 clear: `None` contributes `0` and a real
button `b` contributes `2 ^ (b as u8)` with `b as u8 ≥ 1`. -/
theorem PointerButton.mask_testBit_zero (b : PointerButton) :
    b.mask.testBit 0 = false := by
  cases b <;> decide

/-- A byte stays fixed under `&&& 255`. -/
theorem Nat.land_255_of_lt (x : Nat) (h : x < 256) : x &&& 255 = x := by
  have h2 : x < 2 ^ 8 := h
  calc x &&& 255 = x % 2 ^ 8 := Nat.and_pow_two_sub_one_eq_mod x 8
    _ = x := Nat.mod_eq_of_lt h2

/-- The mask of `None` is literally zero. -/
theorem PointerButton.mask_none_eq : PointerButton.mask .None = 0 := by decide

/-- `contains` never sees bit 0: membership of `None` is always `false`
(shared auxiliary fact). -/
theorem PointerButtons.contains_none_eq (s : PointerButtons) :
    s.contains .None = false := by
  simp [PointerButtons.contains, PointerButton.mask_none_eq]

/-- For a real button the mask is the single bit at the button's ordinal. -/
theorem PointerButton.mask_eq_two_pow (b : PointerButton) (hb : b ≠ .None) :
    b.mask = 2 ^ b.toU8 := by
  cases b
  · exact absurd rfl hb
  all_goals decide

/-- Membership of a real button reads the bit at the button's ordinal. -/
theorem PointerButtons.contains_eq_testBit (s : PointerButtons) (b : PointerButton)
    (hb : b ≠ .None) : s.contains b = s.toU8.testBit b.toU8 := by
  rw [PointerButtons.contains, PointerButton.mask_eq_two_pow b hb, Nat.and_two_pow]
  cases h : s.toU8.testBit b.toU8 <;> simp [h]

/-- C2: inserting or removing `PointerButton::None` is a no-op: for every
`PointerButtons` byte `s`, `insert None`, `remove None`, `with None` and
`without None` all leave `s` unchanged. -/
theorem C2_none_ops_noop (s : PointerButtons) (h : s.toU8 < 256) :
    s.insert .None = s ∧ s.remove .None = s ∧
    s.withButton .None = s ∧ s.without .None = s := by
  obtain ⟨v⟩ := s
  have hins : (⟨v⟩ : PointerButtons).insert .None = ⟨v⟩ := by
    simp [PointerButtons.insert, PointerButton.mask_none_eq]
  have hrem : (⟨v⟩ : PointerButtons).remove .None = ⟨v⟩ := by
    simp only [PointerButtons.remove, PointerButton.mask_none_eq, Nat.xor_zero]
    exact congrArg PointerButtons.mk (Nat.land_255_of_lt v h)
  exact ⟨hins, hrem, hins, hrem⟩

/-- C2 witness: evaluated at the concrete byte 37. -/
theorem C2_witness :
    (PointerButtons.fromU8 37).insert .None = PointerButtons.fromU8 37 ∧
    (PointerButtons.fromU8 37).remove .None = PointerButtons.fromU8 37 := by
  have h := C2_none_ops_noop (PointerButtons.fromU8 37) (by decide)
  exact ⟨h.1, h.2.1⟩

/-- C3: for every `PointerButtons` value `s`, `s.contains(None)` is `false`:
the mask of `None` collapses to zero, so the bitwise test always fails. -/
theorem C3_contains_none_false (s : PointerButtons) :
    s.contains .None = false :=
  PointerButtons.contains_none_eq s

/-- C5: the `isize → PointerButton` conversion is total with a `None`
fallback: every integer outside `{0,1,2,3,4,5}` converts to `None`. -/
theorem C5_out_of_range_to_none (i : Int)
    (h : i ∉ ({0, 1, 2, 3, 4, 5} : Finset Int)) :
    PointerButton.fromIsize i = PointerButton.None := by
  unfold PointerButton.fromIsize
  split <;> first | rfl | (exfalso; simp_all)

/-- C5 witness: evaluated at 7 and -1, both out of range. -/
theorem C5_witness :
    PointerButton.fromIsize 7 = PointerButton.None ∧
    PointerButton.fromIsize (-1) = PointerButton.None :=
  ⟨C5_out_of_range_to_none 7 (by decide), C5_out_of_range_to_none (-1) (by decide)⟩

/-- C6: conversion follows the fixed table 0=None, 1=Primary, 2=Secondary,
3=Auxiliary, 4=X1, 5=X2, and on `{0,...,5}` converting back to an integer
round-trips. -/
theorem C6_roundtrip :
    PointerButton.fromIsize 0 = PointerButton.None ∧
    PointerButton.fromIsize 1 = PointerButton.Primary ∧
    PointerButton.fromIsize 2 = PointerButton.Secondary ∧
    PointerButton.fromIsize 3 = PointerButton.Auxiliary ∧
    PointerButton.fromIsize 4 = PointerButton.X1 ∧
    PointerButton.fromIsize 5 = PointerButton.X2 ∧
    ∀ i : Int, i ∈ ({0, 1, 2, 3, 4, 5} : Finset Int) →
      (PointerButton.fromIsize i).toIsize = i := by
  refine ⟨by decide, by decide, by decide, by decide, by decide, by decide, ?_⟩
  intro i hi
  fin_cases hi <;> decide

/-- C6 witness: the round trip evaluated at 3. -/
theorem C6_witness : (PointerButton.fromIsize 3).toIsize = 3 :=
  C6_roundtrip.2.2.2.2.2.2 3 (by decide)

/-- C8: union is commutative and idempotent. -/
theorem C8_union_comm_idem (a b : PointerButtons) :
    a.union b = b.union a ∧ a.union a = a := by
  obtain ⟨x⟩ := a
  obtain ⟨y⟩ := b
  exact ⟨congrArg PointerButtons.mk (Nat.lor_comm x y),
         congrArg PointerButtons.mk (Nat.or_self x)⟩

/-- C9: starting from the empty set, `without` inverts `with` for every
button, `None` included. -/
theorem C9_with_without_inverse (b : PointerButton) :
    (PointerButtons.empty.withButton b).without b = PointerButtons.empty := by
  cases b <;> decide

/-- C10: the builder-style and mutating operations compute identical
results: `with` equals `insert`, `without` equals `remove`, and `union`
equals `extend`. -/
theorem C10_builder_mutating_agree (s t : PointerButtons) (b : PointerButton) :
    s.withButton b = s.insert b ∧ s.without b = s.remove b ∧
    s.union t = s.extend t :=
  ⟨rfl, rfl, rfl⟩

/-- Bitwise containment survives any sequence of removals (shared auxiliary
fact, stated over the raw bytes). -/
theorem PointerButtons.land_foldl_remove (s : PointerButtons)
    (bs : List PointerButton) :
    ∀ t : PointerButtons, s.toU8 &&& t.toU8 = t.toU8 →
      s.toU8 &&& (List.foldl PointerButtons.remove t bs).toU8 =
        (List.foldl PointerButtons.remove t bs).toU8 := by
  induction bs with
  | nil => exact fun t ht => ht
  | cons b bs ih =>
      intro t ht
      apply ih
      show s.toU8 &&& (t.toU8 &&& (255 ^^^ b.mask)) = t.toU8 &&& (255 ^^^ b.mask)
      rw [← Nat.land_assoc, ht]

/-- A superset claim fails as soon as one bit of the argument is missing
from the receiver (shared auxiliary fact). -/
theorem PointerButtons.is_superset_false_of_bit (s t : PointerButtons) (k : Nat)
    (ht : t.toU8.testBit k = true) (hs : s.toU8.testBit k = false) :
    s.is_superset t = false := by
  rw [PointerButtons.is_superset]
  rw [beq_eq_false_iff_ne]
  intro heq
  have hbit : (s.toU8 &&& t.toU8).testBit k = t.toU8.testBit k := by rw [heq]
  rw [Nat.testBit_land, hs, ht] at hbit
  simp at hbit

/-- C7: `is_superset` characterizes bitwise containment: `S.is_superset(T)`
is true iff every bit set in `T` is set in `S`; consequently any `T` built
from `S` by removing buttons is contained in `S`, and a `T` holding a
button missing from `S` is not. -/
theorem C7_is_superset_characterization :
    (∀ s t : PointerButtons, s.is_superset t = true ↔
      ∀ i : Nat, t.toU8.testBit i = true → s.toU8.testBit i = true) ∧
    (∀ (s : PointerButtons) (bs : List PointerButton),
      s.is_superset (List.foldl PointerButtons.remove s bs) = true) ∧
    (∀ (s t : PointerButtons) (b : PointerButton),
      t.contains b = true → s.contains b = false → s.is_superset t = false) := by
  refine ⟨?_, ?_, ?_⟩
  · intro s t
    rw [PointerButtons.is_superset, beq_iff_eq]
    constructor
    · intro h i hi
      have hbit : (s.toU8 &&& t.toU8).testBit i = t.toU8.testBit i := by rw [h]
      rw [Nat.testBit_land, hi, Bool.and_true] at hbit
      exact hbit
    · intro h
      apply Nat.eq_of_testBit_eq
      intro i
      rw [Nat.testBit_land]
      cases hti : t.toU8.testBit i
      · simp
      · simp [h i hti]
  · intro s bs
    rw [PointerButtons.is_superset, beq_iff_eq]
    exact PointerButtons.land_foldl_remove s bs s (Nat.and_self s.toU8)
  · intro s t b hc hnc
    by_cases hb : b = PointerButton.None
    · subst hb
      rw [PointerButtons.contains_none_eq] at hc
      exact absurd hc (by simp)
    · rw [PointerButtons.contains_eq_testBit t b hb] at hc
      rw [PointerButtons.contains_eq_testBit s b hb] at hnc
      exact PointerButtons.is_superset_false_of_bit s t b.toU8 hc hnc

/-- C7 witness: `{Primary}` does not cover `{Secondary}`, and removing
`Primary` from `{Primary, Secondary}` keeps a subset. -/
theorem C7_witness :
    PointerButtons.is_superset ⟨2⟩ ⟨4⟩ = false ∧
    PointerButtons.is_superset ⟨6⟩
      (List.foldl PointerButtons.remove ⟨6⟩ [PointerButton.Primary]) = true :=
  ⟨C7_is_superset_characterization.2.2 ⟨2⟩ ⟨4⟩ PointerButton.Secondary
      (by decide) (by decide),
   C7_is_superset_characterization.2.1 ⟨6⟩ [PointerButton.Primary]⟩

/-- Values producible through the public interface as the claim lists it:
`empty`, `insert`, `remove`, `with`, `without`, `extend`, `union`, `clear`
and the `From<u8>` conversion (whose input is a byte). -/
inductive Producible : PointerButtons → Prop where
  | empty : Producible PointerButtons.empty
  | fromU8 (v : Nat) (h : v < 256) : Producible (PointerButtons.fromU8 v)
  | insert (s : PointerButtons) (b : PointerButton) :
      Producible s → Producible (s.insert b)
  | remove (s : PointerButtons) (b : PointerButton) :
      Producible s → Producible (s.remove b)
  | withButton (s : PointerButtons) (b : PointerButton) :
      Producible s → Producible (s.withButton b)
  | without (s : PointerButtons) (b : PointerButton) :
      Producible s → Producible (s.without b)
  | extend (s t : PointerButtons) :
      Producible s → Producible t → Producible (s.extend t)
  | union (s t : PointerButtons) :
      Producible s → Producible t → Producible (s.union t)
  | clear (s : PointerButtons) : Producible s → Producible (s.clear)

/-- Values producible through the button-level operations alone, without
the raw `From<u8>` conversion. -/
inductive ProducibleNoFromU8 : PointerButtons → Prop where
  | empty : ProducibleNoFromU8 PointerButtons.empty
  | insert (s : PointerButtons) (b : PointerButton) :
      ProducibleNoFromU8 s → ProducibleNoFromU8 (s.insert b)
  | remove (s : PointerButtons) (b : PointerButton) :
      ProducibleNoFromU8 s → ProducibleNoFromU8 (s.remove b)
  | withButton (s : PointerButtons) (b : PointerButton) :
      ProducibleNoFromU8 s → ProducibleNoFromU8 (s.withButton b)
  | without (s : PointerButtons) (b : PointerButton) :
      ProducibleNoFromU8 s → ProducibleNoFromU8 (s.without b)
  | extend (s t : PointerButtons) :
      ProducibleNoFromU8 s → ProducibleNoFromU8 t →
      ProducibleNoFromU8 (s.extend t)
  | union (s t : PointerButtons) :
      ProducibleNoFromU8 s → ProducibleNoFromU8 t →
      ProducibleNoFromU8 (s.union t)
  | clear (s : PointerButtons) :
      ProducibleNoFromU8 s → ProducibleNoFromU8 (s.clear)

/-- C1 counterexample: the byte 1 is a legal `From<u8>` input and the value
it produces has bit 0 set, so bit 0 is not clear on every value producible
through the public interface as listed (which includes `From<u8>`). -/
theorem C1_counterexample :
    Producible (PointerButtons.fromU8 1) ∧
    Nat.testBit (PointerButtons.fromU8 1).toU8 0 = true :=
  ⟨Producible.fromU8 1 (by decide), by decide⟩

/-- C1 (amended): bit 0 is clear on every value producible through the
button-level operations, i.e. the public interface without the raw
`From<u8>` conversion. -/
theorem C1_bit0_clear_amended (s : PointerButtons)
    (h : ProducibleNoFromU8 s) : s.toU8.testBit 0 = false := by
  induction h with
  | empty => decide
  | insert s b _ ih =>
      simp only [PointerButtons.insert, Nat.testBit_lor, ih,
        PointerButton.mask_testBit_zero, Bool.or_self]
  | remove s b _ ih =>
      simp only [PointerButtons.remove, Nat.testBit_land, ih,
        Bool.false_and]
  | withButton s b _ ih =>
      simp only [PointerButtons.withButton, Nat.testBit_lor, ih,
        PointerButton.mask_testBit_zero, Bool.or_self]
  | without s b _ ih =>
      simp only [PointerButtons.without, Nat.testBit_land, ih,
        Bool.false_and]
  | extend s t _ _ ihs iht =>
      simp only [PointerButtons.extend, Nat.testBit_lor, ihs, iht,
        Bool.or_self]
  | union s t _ _ ihs iht =>
      simp only [PointerButtons.union, Nat.testBit_lor, ihs, iht,
        Bool.or_self]
  | clear s _ _ =>
      simp only [PointerButtons.clear]
      decide

/-- C1 witness: evaluated on `empty().insert(Primary)`. -/
theorem C1_witness :
    Nat.testBit ((PointerButtons.empty.insert PointerButton.Primary).toU8) 0
      = false :=
  C1_bit0_clear_amended _
    (ProducibleNoFromU8.insert _ _ ProducibleNoFromU8.empty)

/-- The set contains no real button: every button other than `None` fails
the membership test. -/
def NoRealButton (s : PointerButtons) : Prop :=
  ∀ b : PointerButton, b ≠ PointerButton.None → s.contains b = false

instance (s : PointerButtons) : Decidable (NoRealButton s) :=
  inferInstanceAs (Decidable (∀ b : PointerButton,
    b ≠ PointerButton.None → s.contains b = false))

/-- C4 counterexample: the byte 1 comes from `From<u8>`, contains no real
button, yet `is_empty` is `false` on it, so the claimed equivalence fails. -/
theorem C4_counterexample :
    ¬ ((PointerButtons.fromU8 1).is_empty = true ↔
        NoRealButton (PointerButtons.fromU8 1)) := by
  decide

set_option maxRecDepth 4096 in
/-- C4 (amended): for every byte whose bits 0, 6 and 7 are clear — in
particular every value built by the button-level operations — `is_empty`
is `true` exactly when no real button is contained. -/
theorem C4_is_empty_iff_amended :
    ∀ v : Nat, v < 256 → v &&& 193 = 0 →
      ((PointerButtons.fromU8 v).is_empty = true ↔
        NoRealButton (PointerButtons.fromU8 v)) := by
  decide

/-- C4 witness: evaluated at the bytes 0 and 6. -/
theorem C4_witness :
    ((PointerButtons.fromU8 0).is_empty = true ↔
      NoRealButton (PointerButtons.fromU8 0)) ∧
    ((PointerButtons.fromU8 6).is_empty = true ↔
      NoRealButton (PointerButtons.fromU8 6)) :=
  ⟨C4_is_empty_iff_amended 0 (by decide) (by decide),
   C4_is_empty_iff_amended 6 (by decide) (by decide)⟩
